import Mathlib

/-!
# Verification of the imx6_ddrstat MMDC performance-counter sampler

A shallow embedding of `imx6_ddrstat.c`, the i.MX6 DDR controller statistics
tool.  The program drives the MMDC profiling registers of up to two memory
controllers, samples six 32-bit counters over a fixed interval and formats
the result either raw or in human-readable units.

Modelling conventions:
* 32-bit device registers hold `Nat` values; the program only ever writes
  values below `2^32`.  A register window is a word-indexed store together
  with the ordered trace of the writes performed on it, so that theorems can
  speak both about final register contents and about the exact write
  sequence the program issues.
* The target of this program is the i.MX6 (a 32-bit ARM SoC, ILP32 ABI), so
  the C type `unsigned long` used by the formatter is 32 bits wide; its
  arithmetic is modelled modulo `2^32` (`ULONG_MOD`).
* `double` arithmetic appears only in the busy-percentage display.  It is
  modelled exactly over the integers: for `cycles ≠ 0` we render the
  correctly rounded centi-percent of the exact quotient (which coincides
  with `printf "%.2f"` of the `double` quotient whenever that quotient is
  exactly representable — the case at every concrete input used below), and
  for `cycles = 0` the IEEE-754 quotient is NaN (`busy = 0`) or +infinity,
  which glibc `printf "%.2f"` renders as `nan` / `inf`.
* Each C integer division site with a variable divisor is modelled through
  the checked division `cdiv`, which returns `none` on a zero divisor; a
  formatter result of `some _` therefore certifies that no integer division
  by zero was performed.
-/

namespace Imx6Ddrstat

/-! ## Register map constants (from the `#define` block) -/

def MMDC_MADPCR0 : Nat := 0x0410
def MMDC_MADPCR1 : Nat := 0x0414
/-- total cycles -/
def MMDC_MADPSR0 : Nat := 0x0418
/-- busy cycles -/
def MMDC_MADPSR1 : Nat := 0x041c
/-- total read accesses -/
def MMDC_MADPSR2 : Nat := 0x0420
/-- total write accesses -/
def MMDC_MADPSR3 : Nat := 0x0424
/-- total read bytes -/
def MMDC_MADPSR4 : Nat := 0x0428
/-- total write bytes -/
def MMDC_MADPSR5 : Nat := 0x042c

def MADPCR0_DBG_EN : Nat := 1 <<< 0
def MADPCR0_DBG_RST : Nat := 1 <<< 1
def MADPCR0_PRF_FRZ : Nat := 1 <<< 2
def MADPCR0_CYC_OVF : Nat := 1 <<< 3

def MADPCR1_PRF_AXI_ID_SHIFT : Nat := 0
def MADPCR1_PRF_AXI_ID_MASK_SHIFT : Nat := 16

/-- `unsigned long` on the i.MX6 target (ILP32) is 32 bits wide. -/
def ULONG_MOD : Nat := 2 ^ 32

/-! ## Register windows

`struct` counterpart of one mapped MMDC register page.  `regs` maps a word
index (the C code indexes `mmdc[offset >> 2]` on a `uint32_t *`) to the
current register value; `trace` records every 32-bit store performed on the
window, oldest first. -/

structure RegWrite where
  index : Nat
  value : Nat
deriving DecidableEq, Repr

structure Window where
  regs : Nat → Nat
  trace : List RegWrite

def read32 (w : Window) (idx : Nat) : Nat := w.regs idx

def write32 (w : Window) (idx v : Nat) : Window :=
  ⟨fun i => if i = idx then v else w.regs i, w.trace ++ [⟨idx, v⟩]⟩

/-! ## Counter snapshots (`struct mmdc_stats`) -/

structure mmdc_stats where
  cycles : Nat
  busy_cycles : Nat
  read_accesses : Nat
  write_accesses : Nat
  read_bytes : Nat
  write_bytes : Nat
deriving DecidableEq, Repr

/-- Zero-initialised static snapshot (`static struct mmdc_stats mmdc0_end`). -/
def mmdc_stats.zero : mmdc_stats := ⟨0, 0, 0, 0, 0, 0⟩

/-! ## `mmdc_init`: the arming sequence

The source performs, on a freshly mapped window, the four stores of lines
95–102 and returns the mapping.  The AXI id and mask are the program's
`unsigned short` globals, hence below `2^16`. -/

def mmdc_init (w : Window) (axi_id axi_id_mask : Nat) : Window :=
  let w1 := write32 w (MMDC_MADPCR0 >>> 2) 0
  let w2 := write32 w1 (MMDC_MADPCR0 >>> 2) (MADPCR0_DBG_RST ||| MADPCR0_CYC_OVF)
  let w3 := write32 w2 (MMDC_MADPCR0 >>> 2) (MADPCR0_DBG_EN ||| MADPCR0_PRF_FRZ)
  write32 w3 (MMDC_MADPCR1 >>> 2)
    ((axi_id_mask <<< MADPCR1_PRF_AXI_ID_MASK_SHIFT) |||
     (axi_id <<< MADPCR1_PRF_AXI_ID_SHIFT))

/-- `mmdc_read`: load the six statistics registers into a snapshot. -/
def mmdc_read (w : Window) : mmdc_stats :=
  ⟨read32 w (MMDC_MADPSR0 >>> 2),
   read32 w (MMDC_MADPSR1 >>> 2),
   read32 w (MMDC_MADPSR2 >>> 2),
   read32 w (MMDC_MADPSR3 >>> 2),
   read32 w (MMDC_MADPSR4 >>> 2),
   read32 w (MMDC_MADPSR5 >>> 2)⟩

/-- C1/C5 helper: a concrete window whose registers all read zero. -/
def blankWindow : Window := ⟨fun _ => 0, []⟩

/-! ## The AXI filter catalog (`struct axi_filter filters[]`)

Field order follows the C struct: name, then `axi_id_mask`, then `axi_id`.
The C array's `{}` sentinel terminator is represented by the end of the
list (the loops in the source stop at `filter->name == NULL`). -/

structure axi_filter where
  name : String
  axi_id_mask : Nat
  axi_id : Nat
deriving DecidableEq, Repr

def filters : List axi_filter :=
  [⟨"arm-s0",    0b11100000000111, 0b00000000000000⟩,
   ⟨"arm-s1",    0b11100000000111, 0b00000000000001⟩,
   ⟨"ipu1",      0b11111111100111, 0b00000000000100⟩,
   ⟨"ipu1-0",    0b11111111111111, 0b00000000000100⟩,
   ⟨"ipu1-1",    0b11111111111111, 0b00000000001100⟩,
   ⟨"ipu1-2",    0b11111111111111, 0b00000000010100⟩,
   ⟨"ipu1-3",    0b11111111111111, 0b00000000011100⟩,
   ⟨"ipu2",      0b11111111100111, 0b00000000000101⟩,
   ⟨"ipu2-0",    0b11111111111111, 0b00000000000101⟩,
   ⟨"ipu2-1",    0b11111111111111, 0b00000000001101⟩,
   ⟨"ipu2-2",    0b11111111111111, 0b00000000010101⟩,
   ⟨"ipu2-3",    0b11111111111111, 0b00000000011101⟩,
   ⟨"gpu3d-a",   0b11110000111111, 0b00000000000010⟩,
   ⟨"gpu2d-a",   0b11110000111111, 0b00000000001010⟩,
   ⟨"vdoa",      0b11111100111111, 0b00000000010010⟩,
   ⟨"openvg",    0b11110000111111, 0b00000000100010⟩,
   ⟨"hdmi",      0b11111111111111, 0b00000100011010⟩,
   ⟨"sdma-brst", 0b11111111111111, 0b00000101011010⟩,
   ⟨"sdma-per",  0b11111111111111, 0b00000110011010⟩,
   ⟨"caam",      0b00001111111111, 0b00000000011010⟩,
   ⟨"usb",       0b11001111111111, 0b00000001011010⟩,
   ⟨"enet",      0b11111111111111, 0b00000010011010⟩,
   ⟨"hsi",       0b11111111111111, 0b00000011011010⟩,
   ⟨"usdhc1",    0b11111111111111, 0b00000111011010⟩,
   ⟨"gpu3d-b",   0b11110000111111, 0b00000000000011⟩,
   ⟨"gpu2d-b",   0b11110000111111, 0b00000000001011⟩,
   ⟨"vpu-prime", 0b11110000111111, 0b00000000010011⟩,
   ⟨"pcie",      0b11100000111111, 0b00000000011011⟩,
   ⟨"dap",       0b11111111111111, 0b00000000100011⟩,
   ⟨"apbh-dma",  0b11111111111111, 0b00000010100011⟩,
   ⟨"bch40",     0b00001111111111, 0b00000001100011⟩,
   ⟨"sata",      0b11111111111111, 0b00000011100011⟩,
   ⟨"mlb150",    0b11111111111111, 0b00000100100011⟩,
   ⟨"usdhc2",    0b11111111111111, 0b00000101100011⟩,
   ⟨"usdhc3",    0b11111111111111, 0b00000110100011⟩,
   ⟨"usdhc4",    0b11111111111111, 0b00000111100011⟩]

/-- The linear scan of `setup_axi_filter`: first entry whose name compares
equal under `strcmp` (exact, case-sensitive equality). -/
def lookupFilter (master : String) : Option axi_filter :=
  filters.find? (fun f => f.name == master)

/-- Effect of `setup_axi_filter` on the `(axi_id, axi_id_mask)` globals:
the matched entry's pair, or the pass-all `(0, 0)` when no entry matches. -/
def setup_axi_filter (master : String) : Nat × Nat :=
  match lookupFilter master with
  | some f => (f.axi_id, f.axi_id_mask)
  | none => (0, 0)

/-- The usb catalog entry, used as a concrete witness input. -/
def usbEntry : axi_filter := ⟨"usb", 0b11001111111111, 0b00000001011010⟩

/-- A bus-master name that is not in the catalog. -/
def unknownName : String := "nonexistent"

/-! ## The statistics formatter (`mmdc_print`, `mmdc_print_pretty`) -/

/-- Checked integer division: `none` exactly when the divisor is zero.
Every C division site with a variable divisor goes through this, so a
`some` result certifies the division was never performed with divisor 0. -/
def cdiv (a b : Nat) : Option Nat :=
  if b = 0 then none else some (a / b)

/-- `static const char * const unit[] = { B, KiB, MiB, GiB }`. -/
def unitName : Nat → String
  | 0 => "B"
  | 1 => "KiB"
  | 2 => "MiB"
  | _ => "GiB"

/-- One per-direction size computation of lines 125–130: zero when the
access count is zero, otherwise `(bytes + accesses - 1) / accesses` in
32-bit `unsigned long` arithmetic (the sum wraps modulo `2^32` on the
ILP32 target). -/
def mean_access_size (bytes accesses : Nat) : Option Nat :=
  if accesses ≠ 0 then cdiv ((bytes + accesses - 1) % ULONG_MOD) accesses
  else some 0

/-- The `while (count > 1023 && unit < 3)` loop body, with the bound
`unit < 3` carried as the fuel `3 - unit`: at most three divisions by 1024
are performed, stopping early once the count is at most 1023. -/
def scaleGo : Nat → Nat → Nat → Nat × Nat
  | 0, count, u => (count, u)
  | fuel + 1, count, u =>
    if 1023 < count then scaleGo fuel (count / 1024) (u + 1) else (count, u)

/-- Scale a byte count into a unit index, starting from unit 0 (bytes). -/
def scaleLoop (count : Nat) : Nat × Nat := scaleGo 3 count 0

def strNan : String := "nan"
def strInf : String := "inf"
def padZero : String := "0"
def strEmpty : String := ""

/-- Render a centi-percent value the way `printf "%.2f"` renders the
corresponding percentage, e.g. 2500 ↦ `25.00`. -/
def centiString (c : Nat) : String :=
  toString (c / 100) ++ "." ++
    (if c % 100 < 10 then padZero else strEmpty) ++ toString (c % 100)

/-- Round `q / d` to the nearest integer, ties to even (the IEEE-754
default used by `printf` when the tie is exact). -/
def roundHalfEven (q d : Nat) : Nat :=
  let n := q / d
  let r := q % d
  if 2 * r < d then n
  else if d < 2 * r then n + 1
  else if n % 2 = 0 then n else n + 1

/-- The `%.2f` rendering of `(double)100.0 * busy / cycles`.  For
`cycles = 0` the IEEE quotient is NaN (`busy = 0`) or +infinity, rendered
by glibc as `nan` / `inf`; otherwise the correctly rounded centi-percent
of the exact quotient (which agrees with the `double` computation whenever
the quotient is exactly representable, as at every concrete input below). -/
def formatBusyPercent (busy cycles : Nat) : String :=
  if cycles = 0 then (if busy = 0 then strNan else strInf)
  else centiString (roundHalfEven (10000 * busy) cycles)

/-- `mmdc_print_pretty`: the human-readable line.  Format string:
`%s %.2f%% busy %lu %s reads (%lu B / access) %lu %s writes (%lu B / access)`. -/
def mmdc_print_pretty (tag : String) (st : mmdc_stats) : Option String :=
  (mean_access_size st.read_bytes st.read_accesses).bind fun read_size =>
  (mean_access_size st.write_bytes st.write_accesses).bind fun write_size =>
  some (tag ++ " " ++ formatBusyPercent st.busy_cycles st.cycles ++
    "% busy " ++ toString (scaleLoop st.read_bytes).1 ++ " " ++
    unitName (scaleLoop st.read_bytes).2 ++ " reads (" ++
    toString read_size ++ " B / access) " ++
    toString (scaleLoop st.write_bytes).1 ++ " " ++
    unitName (scaleLoop st.write_bytes).2 ++ " writes (" ++
    toString write_size ++ " B / access)")

/-- The raw-mode line of `mmdc_print`.  Format string:
`%s %.2f%% busy %u reads (%u bytes) %u writes (%u bytes)`. -/
def mmdc_print_raw (tag : String) (st : mmdc_stats) : String :=
  tag ++ " " ++ formatBusyPercent st.busy_cycles st.cycles ++ "% busy " ++
  toString st.read_accesses ++ " reads (" ++ toString st.read_bytes ++
  " bytes) " ++ toString st.write_accesses ++ " writes (" ++
  toString st.write_bytes ++ " bytes)"

/-- `mmdc_print`: dispatch on the `pretty` global. -/
def mmdc_print (pretty : Bool) (tag : String) (st : mmdc_stats) :
    Option String :=
  if pretty then mmdc_print_pretty tag st else some (mmdc_print_raw tag st)

def tagMMDC0 : String := "MMDC0"
def tagMMDC1 : String := "MMDC1"

/-- The snapshot of the spec's end-to-end scenario. -/
def c2_snapshot : mmdc_stats := ⟨100000000, 25000000, 10, 5, 640, 320⟩

/-- Modelled from the spec's words only (for comparison with the code):
the ceiling of total_bytes / access_count, zero when access_count is 0. -/
def spec_mean_bytes_per_access (bytes accesses : Nat) : Nat :=
  if accesses = 0 then 0
  else bytes / accesses + (if bytes % accesses = 0 then 0 else 1)

/-! ## The driver state (`perf_init` / `perf_start` / `perf_stop` /
`perf_print`)

The four static globals of the source: the two optional mapped windows and
the two end-of-interval snapshots (zero-initialised statics). -/

structure SysState where
  mmdc0 : Option Window
  mmdc1 : Option Window
  mmdc0_end : mmdc_stats
  mmdc1_end : mmdc_stats

/-- `perf_init`.  `fdOk` models whether opening the physical-memory device
succeeded, and `map0`/`map1` model the outcome of the two `mmap` calls
(`none` for `MAP_FAILED`, in which case `mmdc_init` returns `NULL` before
touching any register).  Returns the resulting globals and the C return
value: `-1` as soon as the descriptor or either mapping failed, else 0. -/
def perf_init (fdOk : Bool) (map0 map1 : Option Window)
    (axi_id axi_id_mask : Nat) : SysState × Int :=
  if fdOk then
    let m0 := map0.map (fun w => mmdc_init w axi_id axi_id_mask)
    let m1 := map1.map (fun w => mmdc_init w axi_id axi_id_mask)
    (⟨m0, m1, mmdc_stats.zero, mmdc_stats.zero⟩,
     if m0.isNone || m1.isNone then -1 else 0)
  else (⟨none, none, mmdc_stats.zero, mmdc_stats.zero⟩, -1)

/-- The two read-modify-write stores of one `perf_start` block: set
reset + overflow-clear, then clear reset and freeze (`&= ~mask` on a
32-bit register is `&&& (0xFFFFFFFF ^^^ mask)`). -/
def start_window (w : Window) : Window :=
  let w1 := write32 w (MMDC_MADPCR0 >>> 2)
    (read32 w (MMDC_MADPCR0 >>> 2) ||| (MADPCR0_DBG_RST ||| MADPCR0_CYC_OVF))
  write32 w1 (MMDC_MADPCR0 >>> 2)
    (read32 w1 (MMDC_MADPCR0 >>> 2) &&&
     (0xFFFFFFFF ^^^ (MADPCR0_DBG_RST ||| MADPCR0_PRF_FRZ)))

/-- `perf_start`: each mapped controller gets the start sequence; an
absent controller (`none`) is untouched. -/
def perf_start (s : SysState) : SysState :=
  { s with mmdc0 := s.mmdc0.map start_window,
           mmdc1 := s.mmdc1.map start_window }

/-- The freeze store of one `perf_stop` block. -/
def freeze_window (w : Window) : Window :=
  write32 w (MMDC_MADPCR0 >>> 2)
    (read32 w (MMDC_MADPCR0 >>> 2) ||| MADPCR0_PRF_FRZ)

/-- The overflow-flag test of `perf_stop`. -/
def window_overflow (w : Window) : Bool :=
  (read32 w (MMDC_MADPCR0 >>> 2) &&& MADPCR0_CYC_OVF) != 0

def overflowMsg0 : String := "overflow 0!\n"
def overflowMsg1 : String := "overflow 1!\n"

/-- One `perf_stop` block: when the window is mapped, freeze it, report
overflow if flagged, and read the six counters into the end snapshot;
when absent, leave everything untouched. -/
def stop_ctrl (win : Option Window) (endSt : mmdc_stats) (msg : String) :
    Option Window × mmdc_stats × List String :=
  match win with
  | some w =>
      let w1 := freeze_window w
      (some w1, mmdc_read w1, if window_overflow w1 then [msg] else [])
  | none => (none, endSt, [])

/-- `perf_stop`: both controller blocks in sequence (they touch disjoint
state).  Returns the new globals and the overflow warnings printed. -/
def perf_stop (s : SysState) : SysState × List String :=
  let r0 := stop_ctrl s.mmdc0 s.mmdc0_end overflowMsg0
  let r1 := stop_ctrl s.mmdc1 s.mmdc1_end overflowMsg1
  (⟨r0.1, r1.1, r0.2.1, r1.2.1⟩, r0.2.2 ++ r1.2.2)

def tabString : String := "\t"
def newlineString : String := "\n"

/-- `perf_print`: nothing at all when the first controller is absent;
otherwise the MMDC0 line, then — only when the recorded MMDC1 snapshot has
non-zero cycles — a tab and the MMDC1 line, then a newline. -/
def perf_print (pretty : Bool) (s : SysState) : Option String :=
  match s.mmdc0 with
  | none => some strEmpty
  | some _ =>
      (mmdc_print pretty tagMMDC0 s.mmdc0_end).bind fun l0 =>
        if s.mmdc1_end.cycles ≠ 0 then
          (mmdc_print pretty tagMMDC1 s.mmdc1_end).map
            (fun l1 => l0 ++ tabString ++ l1 ++ newlineString)
        else some (l0 ++ newlineString)

/-- The operations of the sampling loop after initialisation. -/
inductive PerfOp where
  | start : PerfOp
  | stop : PerfOp

def runOp : PerfOp → SysState → SysState
  | PerfOp.start, s => perf_start s
  | PerfOp.stop, s => (perf_stop s).1

def runOps (ops : List PerfOp) (s : SysState) : SysState :=
  ops.foldl (fun t op => runOp op t) s

/-- The DBG_EN (enable) bit of a window's control register is set. -/
def winEnabledB (w : Window) : Bool :=
  Nat.testBit (read32 w (MMDC_MADPCR0 >>> 2)) 0

/-- Both present controllers have the enable bit set. -/
def sysEnabled (s : SysState) : Prop :=
  s.mmdc0.all winEnabledB = true ∧ s.mmdc1.all winEnabledB = true

/-- Armed-but-never-started concrete state for C3: the window's cycle
counter register reads 42, everything else 0. -/
def c3_window : Window :=
  ⟨fun i => if i = MMDC_MADPSR0 >>> 2 then 42 else 0, []⟩

def c3_state : SysState :=
  (perf_init true (some c3_window) (some c3_window) 0 0).1

/-- Both-controllers-armed concrete state for the C10 witness. -/
def c10_state : SysState :=
  (perf_init true (some blankWindow) (some blankWindow) 0 0).1

/-- Concrete single-controller state for the C1 witness: only the first
mapping succeeded. -/
def c1_state : SysState :=
  (perf_init true (some blankWindow) none 0 0).1

end Imx6Ddrstat

namespace Imx6Ddrstat

/-- Helper: the per-direction size computation always yields a value (its
only division is guarded by a non-zero access count). -/
theorem mean_access_size_isSome (b a : Nat) :
    (mean_access_size b a).isSome = true := by
  by_cases h : a = 0 <;> simp [mean_access_size, cdiv, h]

/-- **C5.** Arming a controller performs exactly the write sequence: control
register := 0, then control := reset-assert + overflow-clear, then control
:= enable + freeze, and finally filter-select := (mask << 16) | id, where
the id and mask are the active filter's `unsigned short` values. -/
theorem c5_arm_write_sequence (w : Window) (axi_id axi_id_mask : Nat)
    (hid : axi_id < 2 ^ 16) (hmask : axi_id_mask < 2 ^ 16) :
    (mmdc_init w axi_id axi_id_mask).trace = w.trace ++
      [⟨MMDC_MADPCR0 >>> 2, 0⟩,
       ⟨MMDC_MADPCR0 >>> 2, MADPCR0_DBG_RST ||| MADPCR0_CYC_OVF⟩,
       ⟨MMDC_MADPCR0 >>> 2, MADPCR0_DBG_EN ||| MADPCR0_PRF_FRZ⟩,
       ⟨MMDC_MADPCR1 >>> 2, (axi_id_mask <<< 16) ||| axi_id⟩] := by
  simp [mmdc_init, write32, MADPCR1_PRF_AXI_ID_MASK_SHIFT,
    MADPCR1_PRF_AXI_ID_SHIFT]

/-- Witness for C5 at the `usb` filter values. -/
theorem c5_arm_write_sequence_witness :
    (mmdc_init blankWindow 0b0000001011010 0b11001111111111).trace =
      [⟨MMDC_MADPCR0 >>> 2, 0⟩,
       ⟨MMDC_MADPCR0 >>> 2, MADPCR0_DBG_RST ||| MADPCR0_CYC_OVF⟩,
       ⟨MMDC_MADPCR0 >>> 2, MADPCR0_DBG_EN ||| MADPCR0_PRF_FRZ⟩,
       ⟨MMDC_MADPCR1 >>> 2, (0b11001111111111 <<< 16) ||| 0b0000001011010⟩] :=
  c5_arm_write_sequence blankWindow 0b0000001011010 0b11001111111111
    (by decide) (by decide)

/-- **C4 counterexample.** The claim says the catalog has exactly 35
entries; the table in the source has 36 named entries (the `{}` sentinel
excluded), so the stated count is false. -/
theorem c4_thirtyfive_entries_false :
    filters.length = 36 ∧ filters.length ≠ 35 := by decide

/-- **C4 (amended).** The static filter catalog contains exactly 36 entries
mapping symbolic bus-master names to 14-bit identifier/mask pairs, and the
names are pairwise distinct within the table. -/
theorem c4_catalog_shape :
    filters.length = 36 ∧
    (filters.map axi_filter.name).Nodup ∧
    ∀ f ∈ filters, f.axi_id < 2 ^ 14 ∧ f.axi_id_mask < 2 ^ 14 := by decide

/-- **C6.** For every name present in the catalog, lookup (exact,
case-sensitive string equality) selects exactly the `(axi_id, axi_id_mask)`
pair recorded for that name; for any name not in the catalog, lookup finds
no match and the active filter falls back to the pass-all `(0, 0)`. -/
theorem c6_lookup_exact_and_fallback :
    (∀ f ∈ filters, lookupFilter f.name = some f ∧
      setup_axi_filter f.name = (f.axi_id, f.axi_id_mask)) ∧
    (∀ s : String, s ∉ filters.map axi_filter.name →
      lookupFilter s = none ∧ setup_axi_filter s = (0, 0)) := by
  constructor
  · decide
  · intro s hs
    have hnone : lookupFilter s = none := by
      unfold lookupFilter
      rw [List.find?_eq_none]
      intro f hf
      simp only [beq_iff_eq]
      intro heq
      exact hs (heq ▸ List.mem_map_of_mem axi_filter.name hf)
    refine ⟨hnone, ?_⟩
    unfold setup_axi_filter
    rw [hnone]

/-- Witness for C6: the `usb` entry resolves to its recorded pair, and the
absent name `nonexistent` falls back to the pass-all filter. -/
theorem c6_lookup_witness :
    setup_axi_filter usbEntry.name = (usbEntry.axi_id, usbEntry.axi_id_mask) ∧
    lookupFilter unknownName = none ∧ setup_axi_filter unknownName = (0, 0) :=
  ⟨(c6_lookup_exact_and_fallback.1 usbEntry (by decide)).2,
   (c6_lookup_exact_and_fallback.2 unknownName (by decide)).1,
   (c6_lookup_exact_and_fallback.2 unknownName (by decide)).2⟩

/-- **C2 counterexample.** The claim's expected text shows the read total as
`0 KiB` and the write total as `0 B`; since 640 and 320 are both at most
1023 the scaling loop never runs and the code prints `640 B` and `320 B`. -/
theorem c2_claimed_text_false :
    mmdc_print_pretty tagMMDC0 c2_snapshot ≠
      some (tagMMDC0 ++
        " 25.00% busy 0 KiB reads (64 B / access) 0 B writes (64 B / access)") := by
  decide

/-- **C2 (amended).** The scenario snapshot renders in human mode, after
the tag, as `25.00% busy 640 B reads (64 B / access) 320 B writes
(64 B / access)`: both byte totals are below 1024 and are expressed in
bytes, and each mean access size is 64 B. -/
theorem c2_pretty_rendering :
    mmdc_print_pretty tagMMDC0 c2_snapshot =
      some (tagMMDC0 ++
        " 25.00% busy 640 B reads (64 B / access) 320 B writes (64 B / access)") := by
  decide

/-- Unfolding lemma for one iteration of the scaling loop. -/
theorem scaleGo_succ (fuel count u : Nat) :
    scaleGo (fuel + 1) count u =
      if 1023 < count then scaleGo fuel (count / 1024) (u + 1)
      else (count, u) := rfl

/-- Unfolding lemma for the exhausted scaling loop. -/
theorem scaleGo_zero (count u : Nat) : scaleGo 0 count u = (count, u) := rfl

/-- **C7.** For every 32-bit byte total, the unit-scaling step (repeated
truncating division by 1024, at most 3 times, stopping as soon as the value
is at most 1023) yields a scaled value in [0, 1023], and the original
satisfies `scaled * 1024^steps ≤ original < (scaled + 1) * 1024^steps`. -/
theorem c7_unit_scaling (n : Nat) (h : n < 2 ^ 32) :
    (scaleLoop n).1 ≤ 1023 ∧ (scaleLoop n).2 ≤ 3 ∧
    (scaleLoop n).1 * 1024 ^ (scaleLoop n).2 ≤ n ∧
    n < ((scaleLoop n).1 + 1) * 1024 ^ (scaleLoop n).2 := by
  have h32 : (2 : Nat) ^ 32 = 4294967296 := by norm_num
  by_cases h1 : 1023 < n
  · by_cases h2 : 1023 < n / 1024
    · by_cases h3 : 1023 < n / 1024 / 1024
      · have e : scaleLoop n = (n / 1024 / 1024 / 1024, 3) := by
          unfold scaleLoop
          rw [scaleGo_succ, if_pos h1, scaleGo_succ, if_pos h2,
            scaleGo_succ, if_pos h3, scaleGo_zero]
        rw [e]
        have hp : (1024 : Nat) ^ 3 = 1073741824 := by norm_num
        dsimp only
        rw [hp]
        omega
      · have e : scaleLoop n = (n / 1024 / 1024, 2) := by
          unfold scaleLoop
          rw [scaleGo_succ, if_pos h1, scaleGo_succ, if_pos h2,
            scaleGo_succ, if_neg h3]
        rw [e]
        have hp : (1024 : Nat) ^ 2 = 1048576 := by norm_num
        dsimp only
        rw [hp]
        omega
    · have e : scaleLoop n = (n / 1024, 1) := by
        unfold scaleLoop
        rw [scaleGo_succ, if_pos h1, scaleGo_succ, if_neg h2]
      rw [e]
      have hp : (1024 : Nat) ^ 1 = 1024 := by norm_num
      dsimp only
      rw [hp]
      omega
  · have e : scaleLoop n = (n, 0) := by
      unfold scaleLoop
      rw [scaleGo_succ, if_neg h1]
    rw [e]
    have hp : (1024 : Nat) ^ 0 = 1 := by norm_num
    dsimp only
    rw [hp]
    omega

/-- Witness for C7 at 5 MiB: three total bytes scale to `(5, 2)`. -/
theorem c7_unit_scaling_witness :
    (scaleLoop 5242880).1 ≤ 1023 ∧ (scaleLoop 5242880).2 ≤ 3 ∧
    (scaleLoop 5242880).1 * 1024 ^ (scaleLoop 5242880).2 ≤ 5242880 ∧
    5242880 < ((scaleLoop 5242880).1 + 1) * 1024 ^ (scaleLoop 5242880).2 :=
  c7_unit_scaling 5242880 (by norm_num)

/-- **C8 counterexample.** On the 32-bit target the sum
`bytes + accesses - 1` wraps: at `bytes = 2^32 - 1`, `accesses = 2` the
code computes 0 while the ceiling of `(2^32 - 1) / 2` is `2^31`. -/
theorem c8_ceiling_claim_false :
    mean_access_size (2 ^ 32 - 1) 2 = some 0 ∧
    spec_mean_bytes_per_access (2 ^ 32 - 1) 2 = 2 ^ 31 ∧
    (0 : Nat) ≠ 2 ^ 31 := by decide

/-- **C8 (amended).** The per-direction mean access size always evaluates
(its division is guarded, never performed with a zero divisor), equals zero
when the access count is zero, and equals the ceiling of
`bytes / accesses` — characterised as the least `v` with `bytes ≤ v *
accesses` — whenever the 32-bit sum `bytes + accesses - 1` does not wrap. -/
theorem c8_mean_bytes_per_access (bytes accesses : Nat) :
    (mean_access_size bytes accesses).isSome = true ∧
    (accesses = 0 → mean_access_size bytes accesses = some 0) ∧
    (0 < accesses → bytes + accesses ≤ 2 ^ 32 →
      mean_access_size bytes accesses =
        some ((bytes + accesses - 1) / accesses) ∧
      bytes ≤ ((bytes + accesses - 1) / accesses) * accesses ∧
      ((bytes + accesses - 1) / accesses) * accesses < bytes + accesses) := by
  refine ⟨mean_access_size_isSome bytes accesses, ?_, ?_⟩
  · intro h
    simp [mean_access_size, h]
  · intro ha hle
    have hne : accesses ≠ 0 := by omega
    have h32 : (2 : Nat) ^ 32 = 4294967296 := by norm_num
    have hmod : (bytes + accesses - 1) % ULONG_MOD = bytes + accesses - 1 :=
      Nat.mod_eq_of_lt (by unfold ULONG_MOD; omega)
    refine ⟨by simp [mean_access_size, cdiv, hne, hmod], ?_, ?_⟩
    all_goals
      obtain ⟨p, hp⟩ :
          ∃ p, accesses * ((bytes + accesses - 1) / accesses) = p := ⟨_, rfl⟩
      have hdm := Nat.div_add_mod (bytes + accesses - 1) accesses
      have hr := Nat.mod_lt (bytes + accesses - 1) ha
      rw [hp] at hdm
      rw [Nat.mul_comm, hp]
      omega

/-- Witness for C8 at the scenario's read direction (640 bytes over 10
accesses, mean 64 B). -/
theorem c8_mean_bytes_per_access_witness :
    mean_access_size 640 10 = some ((640 + 10 - 1) / 10) ∧
    640 ≤ ((640 + 10 - 1) / 10) * 10 ∧
    ((640 + 10 - 1) / 10) * 10 < 640 + 10 :=
  (c8_mean_bytes_per_access 640 10).2.2 (by decide) (by norm_num)

/-- Helper: the human-mode formatter is total — both of its guarded
divisions always yield a value. -/
theorem mmdc_print_pretty_isSome (tag : String) (st : mmdc_stats) :
    (mmdc_print_pretty tag st).isSome = true := by
  unfold mmdc_print_pretty
  obtain ⟨v, hv⟩ := Option.isSome_iff_exists.mp
    (mean_access_size_isSome st.read_bytes st.read_accesses)
  obtain ⟨w, hw⟩ := Option.isSome_iff_exists.mp
    (mean_access_size_isSome st.write_bytes st.write_accesses)
  rw [hv, hw]
  rfl

/-- **C9.** For every snapshot with `cycles = 0`, formatting in either mode
still produces an output line (no integer division by zero is performed:
every `cdiv` in the formatter resolves), and the busy percentage renders as
the IEEE quotient's `nan` / `inf` placeholder. -/
theorem c9_zero_cycles_still_prints (pretty : Bool) (tag : String)
    (st : mmdc_stats) (h : st.cycles = 0) :
    (mmdc_print pretty tag st).isSome = true ∧
    formatBusyPercent st.busy_cycles st.cycles =
      (if st.busy_cycles = 0 then strNan else strInf) := by
  constructor
  · cases pretty
    · rfl
    · simp [mmdc_print, mmdc_print_pretty_isSome]
  · rw [h]
    rfl

/-- Witness for C9: the all-zero snapshot formats in human mode. -/
theorem c9_zero_cycles_witness :
    (mmdc_print true tagMMDC0 mmdc_stats.zero).isSome = true ∧
    formatBusyPercent mmdc_stats.zero.busy_cycles mmdc_stats.zero.cycles =
      (if mmdc_stats.zero.busy_cycles = 0 then strNan else strInf) :=
  c9_zero_cycles_still_prints true tagMMDC0 mmdc_stats.zero rfl

/-- **C1 counterexample.** When the second window fails to open while the
first succeeds, `perf_init` does not report success: it returns -1 (and
`main` then exits instead of entering the sampling loop), so the system
does not "initialize successfully and run in single-controller mode". -/
theorem c1_single_controller_init_fails :
    (perf_init true (some blankWindow) none 0 0).2 ≠ 0 := by decide

/-- **C1 (amended).** For a controller whose window failed to open, start
and stop are no-ops for that controller (its snapshot is never written)
and `perf_print` omits its line rather than printing zeros; but
`perf_init` reports failure (-1) whenever either mapping fails, so the
process exits rather than running in single-controller mode. -/
theorem c1_absent_second_controller (map0 : Option Window)
    (axi_id axi_id_mask : Nat) (pretty : Bool) (s : SysState)
    (hs : s.mmdc1 = none) :
    (perf_init true map0 none axi_id axi_id_mask).2 = -1 ∧
    (perf_init true map0 none axi_id axi_id_mask).1.mmdc1 = none ∧
    (perf_start s).mmdc1 = none ∧
    (perf_start s).mmdc1_end = s.mmdc1_end ∧
    (perf_stop s).1.mmdc1 = none ∧
    (perf_stop s).1.mmdc1_end = s.mmdc1_end ∧
    (s.mmdc0 = none → perf_print pretty s = some strEmpty) ∧
    (∀ w, s.mmdc0 = some w → s.mmdc1_end.cycles = 0 →
      perf_print pretty s =
        (mmdc_print pretty tagMMDC0 s.mmdc0_end).map
          (fun l => l ++ newlineString)) := by
  refine ⟨?_, ?_, ?_, ?_, ?_, ?_, ?_, ?_⟩
  · cases map0 <;> rfl
  · cases map0 <;> rfl
  · simp [perf_start, hs]
  · simp [perf_start]
  · simp [perf_stop, stop_ctrl, hs]
  · simp [perf_stop, stop_ctrl, hs]
  · intro h0
    simp [perf_print, h0]
  · intro w hw hcyc
    cases hm : mmdc_print pretty tagMMDC0 s.mmdc0_end with
    | none => simp [perf_print, hw, hcyc, hm]
    | some l => simp [perf_print, hw, hcyc, hm]

/-- Witness for C1 at the concrete single-controller state. -/
theorem c1_absent_second_controller_witness :
    (perf_init true (some blankWindow) none 0 0).2 = -1 ∧
    (perf_init true (some blankWindow) none 0 0).1.mmdc1 = none ∧
    (perf_start c1_state).mmdc1 = none ∧
    (perf_start c1_state).mmdc1_end = c1_state.mmdc1_end ∧
    (perf_stop c1_state).1.mmdc1 = none ∧
    (perf_stop c1_state).1.mmdc1_end = c1_state.mmdc1_end ∧
    (c1_state.mmdc0 = none → perf_print true c1_state = some strEmpty) ∧
    (∀ w, c1_state.mmdc0 = some w → c1_state.mmdc1_end.cycles = 0 →
      perf_print true c1_state =
        (mmdc_print true tagMMDC0 c1_state.mmdc0_end).map
          (fun l => l ++ newlineString)) :=
  c1_absent_second_controller (some blankWindow) 0 0 true c1_state rfl

/-- **C3 counterexample.** From the armed state immediately after
initialization (no `start` ever called, cycle-counter register reading 42),
`perf_stop` is not rejected: it overwrites the end snapshot with the
register contents, producing a snapshot. -/
theorem c3_stop_before_start_produces_snapshot :
    (perf_stop c3_state).1.mmdc0_end ≠ c3_state.mmdc0_end ∧
    (perf_stop c3_state).1.mmdc0_end.cycles = 42 := by decide

/-- **C3 (amended).** Calling stop before any start is not rejected: the
code keeps no state machine, and `perf_stop` on the state produced by
initialization unconditionally freezes the mapped window and loads the six
counter registers into the snapshot. -/
theorem c3_stop_after_arm_reads_counters (r : Nat → Nat)
    (axi_id axi_id_mask : Nat) :
    (perf_stop (perf_init true (some (Window.mk r []))
        none axi_id axi_id_mask).1).1.mmdc0_end =
      ⟨r (MMDC_MADPSR0 >>> 2), r (MMDC_MADPSR1 >>> 2), r (MMDC_MADPSR2 >>> 2),
       r (MMDC_MADPSR3 >>> 2), r (MMDC_MADPSR4 >>> 2),
       r (MMDC_MADPSR5 >>> 2)⟩ := rfl

/-- Helper: `read32` after `write32`. -/
theorem read32_write32 (w : Window) (idx v j : Nat) :
    read32 (write32 w idx v) j = if j = idx then v else read32 w j := rfl

/-- Helper: the control-register value after the start sequence. -/
theorem read32_start_window (w : Window) :
    read32 (start_window w) (MMDC_MADPCR0 >>> 2) =
      (read32 w (MMDC_MADPCR0 >>> 2) |||
        (MADPCR0_DBG_RST ||| MADPCR0_CYC_OVF)) &&&
      (4294967295 ^^^ (MADPCR0_DBG_RST ||| MADPCR0_PRF_FRZ)) := rfl

/-- Helper: the control-register value after the freeze store. -/
theorem read32_freeze_window (w : Window) :
    read32 (freeze_window w) (MMDC_MADPCR0 >>> 2) =
      read32 w (MMDC_MADPCR0 >>> 2) ||| MADPCR0_PRF_FRZ := rfl

/-- Helper: the start sequence never clears the enable bit (bit 0). -/
theorem winEnabledB_start (w : Window) (h : winEnabledB w = true) :
    winEnabledB (start_window w) = true := by
  unfold winEnabledB at h ⊢
  rw [read32_start_window, Nat.testBit_and, Nat.testBit_or, h]
  decide

/-- Helper: the freeze store never clears the enable bit. -/
theorem winEnabledB_freeze (w : Window) (h : winEnabledB w = true) :
    winEnabledB (freeze_window w) = true := by
  unfold winEnabledB at h ⊢
  rw [read32_freeze_window, Nat.testBit_or, h]
  decide

/-- Helper: `perf_start` preserves the enable bit on one controller. -/
theorem all_start (o : Option Window) (h : o.all winEnabledB = true) :
    (o.map start_window).all winEnabledB = true := by
  cases o with
  | none => rfl
  | some w => simpa using winEnabledB_start w (by simpa using h)

/-- Helper: `perf_stop` preserves the enable bit on one controller. -/
theorem all_freeze_stop (o : Option Window) (e : mmdc_stats) (m : String)
    (h : o.all winEnabledB = true) :
    ((stop_ctrl o e m).1).all winEnabledB = true := by
  cases o with
  | none => rfl
  | some w => simpa [stop_ctrl] using winEnabledB_freeze w (by simpa using h)

/-- Helper: one loop operation preserves the enable bit on both
controllers. -/
theorem sysEnabled_runOp (op : PerfOp) (s : SysState) (h : sysEnabled s) :
    sysEnabled (runOp op s) := by
  obtain ⟨h0, h1⟩ := h
  cases op with
  | start => exact ⟨all_start s.mmdc0 h0, all_start s.mmdc1 h1⟩
  | stop => exact ⟨all_freeze_stop s.mmdc0 s.mmdc0_end overflowMsg0 h0,
      all_freeze_stop s.mmdc1 s.mmdc1_end overflowMsg1 h1⟩

/-- **C10.** Initialization arms a controller with the enable bit set, and
every subsequent start/stop operation updates the control register only by
read-modify-write stores that never clear the enable bit: it remains set
across any sequence of start/stop operations. -/
theorem c10_enable_bit_never_cleared :
    (∀ (w : Window) (axi_id axi_id_mask : Nat),
      winEnabledB (mmdc_init w axi_id axi_id_mask) = true) ∧
    (∀ (ops : List PerfOp) (s : SysState), sysEnabled s →
      sysEnabled (runOps ops s)) := by
  constructor
  · intro w axi_id axi_id_mask
    have e : read32 (mmdc_init w axi_id axi_id_mask) (MMDC_MADPCR0 >>> 2) =
        MADPCR0_DBG_EN ||| MADPCR0_PRF_FRZ := rfl
    unfold winEnabledB
    rw [e]
    decide
  · intro ops
    induction ops with
    | nil => exact fun s h => h
    | cons op rest ih => exact fun s h => ih (runOp op s) (sysEnabled_runOp op s h)

/-- Witness for C10: both armed controllers keep the enable bit set across
a start / stop / start sequence. -/
theorem c10_enable_bit_witness :
    winEnabledB (mmdc_init blankWindow 0 0) = true ∧
    sysEnabled (runOps [PerfOp.start, PerfOp.stop, PerfOp.start] c10_state) :=
  ⟨c10_enable_bit_never_cleared.1 blankWindow 0 0,
   c10_enable_bit_never_cleared.2 [PerfOp.start, PerfOp.stop, PerfOp.start]
     c10_state ⟨rfl, rfl⟩⟩

end Imx6Ddrstat
